import Mathlib

/-!
Verification of the conversation orchestrator of the slack-standup-bot
repository against its specification.

The orchestrator code (initStandup, notWorkingClickHandler,
startStandupClickHandler) is embedded shallowly: the mutable
`BOT.conversationState.users` object becomes an explicit state value
threaded through the functions, and every call into the messaging
gateway or the bot state machine is recorded as an `Effect` in an
emitted trace.  Gateway responses are supplied by a `Gateway` oracle so
that success and failure paths of `openConversation` and `postMessage`
can both be explored.
-/

/-- Per-member conversation entry.  `initLog` embeds
`users[member].botMessages.INIT` (the ordered list of message
timestamps recorded for the init phase); `answers` embeds
`users[member].answers`, where `none` is the TypeScript `null`
opted-out sentinel. -/
structure ConvMember where
  initLog : List String
  answers : Option (List String)
deriving DecidableEq, Repr

/-- Modelled from the spec: `createConversationStateMember` (file
`conversationState.ts`, absent from src/) creates the fresh per-member
conversation state seeded at the start of a run: an empty per-phase
message log and no opted-out sentinel.  Its shape is fixed by its uses
in `initStandup`: `botMessages.INIT` must start empty (it is pushed to
after a successful post) and `answers` must not start as the `null`
sentinel. -/
def createConversationStateMember : ConvMember :=
  { initLog := [], answers := some [] }

/-- The `users` map of `BOT.conversationState`: member id to entry. -/
def ConvState : Type := String → Option ConvMember

/-- Object-field assignment `users[member] = v`. -/
def ConvState.set (s : ConvState) (m : String) (v : ConvMember) : ConvState :=
  fun x => if x = m then some v else s x

/-- One observable call made by the orchestrator, in program order. -/
inductive Effect where
  | send (ev : String)
  | connect
  | createMember (m : String)
  | addUserMeta (m : String)
  | openConversation (m : String)
  | updateMessage (channel ts text : String)
  | postMessage (channel : String) (actionIds : List String)
  | ack
  | startStandup (channel ts member : String)
deriving DecidableEq, Repr

/-- Oracle for the external messaging gateway: `openConv m` is the
channel returned by `openConversation` for member `m` (`none` models
failure), and `post channel` is the timestamp returned by `postMessage`
into `channel` (`none` models a reply without `ts`). -/
structure Gateway where
  openConv : String → Option String
  post : String → Option String

/-- One iteration of the `for (const member of BOT.members)` loop of
`initStandup`.  Faithful to the source, including its aliasing:
`prevConversationState` is `BOT.conversationState` itself (a reference
assignment, not a snapshot), so when the recovery check reads
`prevConversationState.users[member]?.botMessages.INIT?.[0]?.ts` it
reads through the alias into the entry that the first line of the loop
body has just replaced with `createConversationStateMember()`.  The
model therefore reads the previously-posted timestamp from the state
AFTER the fresh insertion, exactly as the aliased object graph does. -/
def initMemberStep (gw : Gateway) (notId startId : String)
    (users : ConvState) (m : String) : ConvState × List Effect :=
  let users1 := users.set m createConversationStateMember
  let effs0 := [Effect.createMember m, Effect.addUserMeta m, Effect.openConversation m]
  match gw.openConv m with
  | none => (users1, effs0)
  | some channel =>
    let prevTs := (users1 m).bind fun e => e.initLog.head?
    let updEffs : List Effect :=
      match prevTs with
      | some ts => [Effect.updateMessage channel ts "---"]
      | none => []
    let postEff := Effect.postMessage channel [notId, startId]
    match gw.post channel with
    | none => (users1, effs0 ++ updEffs ++ [postEff])
    | some ts =>
      let users2 :=
        match users1 m with
        | some e => users1.set m { e with initLog := e.initLog ++ [ts] }
        | none => users1
      (users2, effs0 ++ updEffs ++ [postEff])

/-- The member loop of `initStandup`, run over the member list in
order (the source loop is a sequential `for ... of` whose body awaits
every gateway call before the next iteration starts). -/
def runMembers (gw : Gateway) (notId startId : String)
    (users : ConvState) : List String → ConvState × List Effect
  | [] => (users, [])
  | m :: rest =>
    let r1 := initMemberStep gw notId startId users m
    let r2 := runMembers gw notId startId r1.1 rest
    (r2.1, r1.2 ++ r2.2)

/-- The `StandupBot` fields that `initStandup` and the click handlers
use: the run member list, the two button action ids, and the users map
of the conversation state. -/
structure StandupBot where
  members : List String
  notButtonId : String
  startButtonId : String
  conversationState : ConvState

/-- Embedding of `initStandup`: sends `INIT`, connects, runs the member
loop, then sends `INIT_DONE`.  Returns the final users map and the
emitted effect trace. -/
def initStandup (gw : Gateway) (bot : StandupBot) : ConvState × List Effect :=
  let r := runMembers gw bot.notButtonId bot.startButtonId
    bot.conversationState bot.members
  (r.1, Effect.send "INIT" :: Effect.connect :: (r.2 ++ [Effect.send "INIT_DONE"]))

/-- The effects of one member iteration, as a function of the gateway
oracle and the member alone (they do not depend on the incoming state:
the recovery check always reads the freshly created empty entry). -/
def memberEffects (gw : Gateway) (notId startId m : String) : List Effect :=
  match gw.openConv m with
  | none => [Effect.createMember m, Effect.addUserMeta m, Effect.openConversation m]
  | some channel =>
    [Effect.createMember m, Effect.addUserMeta m, Effect.openConversation m,
     Effect.postMessage channel [notId, startId]]

/-- Effects of the whole member loop, member blocks in list order. -/
def membersEffects (gw : Gateway) (notId startId : String) : List String → List Effect
  | [] => []
  | m :: rest => memberEffects gw notId startId m ++ membersEffects gw notId startId rest

/-- The entry a member ends up with after its loop iteration, as a
function of the gateway oracle alone. -/
def memberOutcome (gw : Gateway) (m : String) : ConvMember :=
  match gw.openConv m with
  | none => createConversationStateMember
  | some channel =>
    match gw.post channel with
    | none => createConversationStateMember
    | some ts => { createConversationStateMember with initLog := [ts] }

/-- Inbound interaction payload as the handlers read it:
`body?.channel?.id` (safe optional chain, collapsed to one option),
`body.message` which may be absent, with its `ts` field which may be
absent, and `body.user.id`. -/
structure MessagePayload where
  ts : Option String
deriving DecidableEq, Repr

structure InteractionBody where
  channel : Option String
  message : Option MessagePayload
  userId : String
deriving DecidableEq, Repr

/-- Modelled from the spec: `notWorking` (file `110_notWorking.ts`,
absent from src/) edits the clicked message to a neutral
acknowledgment — the supersede step of the opt-out transition. -/
def notWorking (channel ts : String) : List Effect :=
  [Effect.updateMessage channel ts "not-working-acknowledgment"]

/-- Embedding of `notWorkingClickHandler BOT`.  Order is the source
order: `await ack()` first; `body?.channel?.id` is a safe read;
`(body as any).message.ts` throws a TypeError when `message` is absent
(the access has no optional chaining); the `if (!channel || !ts)
return` guard drops the event; otherwise `notWorking` edits the
clicked message, `users[body.user.id]!.answers = null` throws when the
member has no entry, and `NOT_WORKING` is sent.  The result is the
trace plus either the new users map or the thrown error. -/
def notWorkingClickHandler (users : ConvState) (body : InteractionBody) :
    List Effect × Except String ConvState :=
  match body.message with
  | none => ([Effect.ack], Except.error "TypeError: reading ts of undefined")
  | some msg =>
    match body.channel, msg.ts with
    | some channel, some ts =>
      match users body.userId with
      | none =>
        (Effect.ack :: notWorking channel ts,
         Except.error "TypeError: reading answers of undefined")
      | some e =>
        (Effect.ack :: notWorking channel ts ++ [Effect.send "NOT_WORKING"],
         Except.ok (users.set body.userId { e with answers := none }))
    | _, _ => ([Effect.ack], Except.ok users)

/-- Embedding of `startStandupClickHandler BOT`: ack first, the same
malformed-payload behavior as `notWorkingClickHandler`, then the call
into `startStandup` (recorded as an abstract effect; its own
transitions are outside the claims below). -/
def startStandupClickHandler (users : ConvState) (body : InteractionBody) :
    List Effect × Except String ConvState :=
  match body.message with
  | none => ([Effect.ack], Except.error "TypeError: reading ts of undefined")
  | some msg =>
    match body.channel, msg.ts with
    | some channel, some ts =>
      ([Effect.ack, Effect.startStandup channel ts body.userId], Except.ok users)
    | _, _ => ([Effect.ack], Except.ok users)

/-- Rows of the Standups table, as far as the list page uses them. -/
structure Standup where
  name : String
deriving DecidableEq, Repr

inductive DbError where
  | failure (msg : String)
deriving DecidableEq, Repr

/-- Embedding of `fetchStandups` (apps/web/src/app/standups/page.tsx):
the `db.select().from(Standups)` outcome is the argument; the `catch`
branch returns the empty list.  The function is total: no error
escapes it. -/
def fetchStandups (dbResult : Except DbError (List Standup)) : List Standup :=
  match dbResult with
  | Except.ok rows => rows
  | Except.error _ => []

/-- Projection used to observe the post-handler state: the entry of
member `m` when the handler returned normally, `none` when it threw. -/
def stateAfter (r : Except String ConvState) (m : String) : Option ConvMember :=
  match r with
  | Except.ok u => u m
  | Except.error _ => none

/-- Is this effect an `updateMessage` gateway call? -/
def Effect.isUpdateMessage : Effect → Bool
  | Effect.updateMessage _ _ _ => true
  | _ => false

/-- Number of `postMessage` calls issued into `channel` in a trace. -/
def countPosts (channel : String) (l : List Effect) : Nat :=
  l.countP fun e =>
    match e with
    | Effect.postMessage c _ => decide (c = channel)
    | _ => false

/-! ## Structural lemmas about the member loop -/

lemma set_self (u : ConvState) (m : String) (v : ConvMember) :
    u.set m v m = some v := by
  simp [ConvState.set]

lemma initMemberStep_effects (gw : Gateway) (notId startId : String)
    (u : ConvState) (m : String) :
    (initMemberStep gw notId startId u m).2 = memberEffects gw notId startId m := by
  unfold initMemberStep memberEffects
  cases hc : gw.openConv m with
  | none => rfl
  | some channel =>
    cases hp : gw.post channel <;>
      simp [hp, ConvState.set, createConversationStateMember]

lemma initMemberStep_state (gw : Gateway) (notId startId : String)
    (u : ConvState) (m x : String) :
    (initMemberStep gw notId startId u m).1 x
      = if x = m then some (memberOutcome gw m) else u x := by
  unfold initMemberStep memberOutcome
  cases hc : gw.openConv m with
  | none => simp [ConvState.set, createConversationStateMember]
  | some channel =>
    cases hp : gw.post channel with
    | none => simp [hp, ConvState.set, createConversationStateMember]
    | some ts =>
      simp only [hp, createConversationStateMember, set_self]
      by_cases hx : x = m
      · simp [hx, set_self]
      · simp [ConvState.set, hx]

lemma runMembers_effects (gw : Gateway) (notId startId : String)
    (u : ConvState) (l : List String) :
    (runMembers gw notId startId u l).2 = membersEffects gw notId startId l := by
  induction l generalizing u with
  | nil => rfl
  | cons m rest ih =>
    simp [runMembers, membersEffects, initMemberStep_effects, ih]

lemma runMembers_state (gw : Gateway) (notId startId : String)
    (u : ConvState) (l : List String) (x : String) :
    (runMembers gw notId startId u l).1 x
      = if x ∈ l then some (memberOutcome gw x) else u x := by
  induction l generalizing u with
  | nil => rfl
  | cons m rest ih =>
    simp only [runMembers, ih, initMemberStep_state, List.mem_cons]
    by_cases hr : x ∈ rest
    · simp [hr]
    · by_cases hm : x = m <;> simp [hr, hm]

lemma initStandup_trace (gw : Gateway) (bot : StandupBot) :
    (initStandup gw bot).2
      = Effect.send "INIT" :: Effect.connect ::
        (membersEffects gw bot.notButtonId bot.startButtonId bot.members
          ++ [Effect.send "INIT_DONE"]) := by
  simp [initStandup, runMembers_effects]

lemma initStandup_state (gw : Gateway) (bot : StandupBot) (x : String) :
    (initStandup gw bot).1 x
      = if x ∈ bot.members then some (memberOutcome gw x)
        else bot.conversationState x := by
  simp [initStandup, runMembers_state]

/-! ## Concrete fixtures -/

/-- A users map with no entries. -/
def emptyState : ConvState := fun _ => none

/-- Gateway for the recovery scenario: member U1 gets channel D1 and
the new post succeeds with timestamp 9999.0001. -/
def gwC1 : Gateway :=
  { openConv := fun m => if m = "U1" then some "D1" else none,
    post := fun c => if c = "D1" then some "9999.0001" else none }

/-- Bot whose recovered conversation state already holds a live init
reference 1111.2222 for member U1. -/
def botC1 : StandupBot :=
  { members := ["U1"], notButtonId := "notW", startButtonId := "startW",
    conversationState := fun m =>
      if m = "U1" then some { initLog := ["1111.2222"], answers := some [] } else none }

/-- Users map where U1 holds live init reference 111.0 and recorded
answers, used to probe stale-reference handling. -/
def usersC2 : ConvState :=
  fun m => if m = "U1" then some { initLog := ["111.0"], answers := some ["a"] } else none

/-- Stale click: the message timestamp 000.9 does not match the live
reference 111.0 of U1. -/
def bodyStaleC2 : InteractionBody :=
  { channel := some "D1", message := some { ts := some "000.9" }, userId := "U1" }

/-- Click by U2, who has no entry in the conversation state. -/
def bodyUnknownC2 : InteractionBody :=
  { channel := some "D1", message := some { ts := some "123.4" }, userId := "U2" }

/-- Gateway where the post into the channel of U1 fails (no timestamp)
while the post for U2 succeeds. -/
def gwC3 : Gateway :=
  { openConv := fun m => if m = "U1" then some "D1" else if m = "U2" then some "D2" else none,
    post := fun c => if c = "D2" then some "200.1" else none }

/-- Two-member run starting from an empty conversation state. -/
def botC3 : StandupBot :=
  { members := ["U1", "U2"], notButtonId := "notW3", startButtonId := "startW3",
    conversationState := emptyState }

/-- Gateway where both members A and B get channels and successful
posts, used to exhibit the serialization of the member loop. -/
def gwC8 : Gateway :=
  { openConv := fun m => if m = "A" then some "DA" else if m = "B" then some "DB" else none,
    post := fun c => if c = "DA" then some "10.0" else if c = "DB" then some "20.0" else none }

def botC8 : StandupBot :=
  { members := ["A", "B"], notButtonId := "notW8", startButtonId := "startW8",
    conversationState := emptyState }

/-- Users map with U1 awaiting its choice on live init reference 55.5. -/
def usersC4 : ConvState :=
  fun m => if m = "U1" then some { initLog := ["55.5"], answers := some [] } else none

/-- Click on the live init message of U1. -/
def bodyLiveC4 : InteractionBody :=
  { channel := some "D9", message := some { ts := some "55.5" }, userId := "U1" }

/-! ## Claims -/

/-- C1.  The claim says that for a member holding a live init-phase
reference R in the recovered prior state, begin issues exactly one
updateMessage against R before posting the new prompt.  The code
cannot do this: `prevConversationState` aliases the live state object,
and the loop replaces `users[member]` with a fresh entry before the
recovery check reads through the alias, so the check always sees an
empty INIT log.  Evaluated at a run whose prior state holds live
reference 1111.2222 for U1: the trace contains zero updateMessage
calls, yet the new prompt is posted and its reference 9999.0001
recorded, so R stays live alongside the new reference. -/
theorem C1_recovery_supersede_never_fires :
    botC1.conversationState "U1" = some { initLog := ["1111.2222"], answers := some [] }
    ∧ (initStandup gwC1 botC1).2.countP Effect.isUpdateMessage = 0
    ∧ countPosts "D1" (initStandup gwC1 botC1).2 = 1
    ∧ (initStandup gwC1 botC1).1 "U1" = some { initLog := ["9999.0001"], answers := some [] } := by
  refine ⟨by decide, by decide, by decide, by decide⟩

/-- C2 counterexample.  The claim says a stale-reference click, or a
click by a member outside the run, is acknowledged with zero state
mutation and never surfaces a failure.  Both parts fail: a click whose
timestamp 000.9 differs from the live reference 111.0 of U1 still
wipes the recorded answers of U1 to the opted-out sentinel, and a
click by U2 (no entry in the state) makes the handler throw after the
acknowledgment. -/
theorem C2_counterexample :
    usersC2 "U1" = some { initLog := ["111.0"], answers := some ["a"] }
    ∧ stateAfter (notWorkingClickHandler usersC2 bodyStaleC2).2 "U1"
        = some { initLog := ["111.0"], answers := none }
    ∧ (notWorkingClickHandler usersC2 bodyUnknownC2).1.head? = some Effect.ack
    ∧ (notWorkingClickHandler usersC2 bodyUnknownC2).2
        = Except.error "TypeError: reading answers of undefined" := by
  refine ⟨by decide, by decide, by decide, rfl⟩

/-- C2 amended.  The handler acknowledges first but applies no
staleness, terminality, or membership guard: for any well-formed click
whose acting member has an entry, it unconditionally edits the clicked
message, wipes the answers of that member to the opted-out sentinel
and sends NOT_WORKING, whatever the live reference or prior state of
the conversation was; a click by a member without an entry throws
after the acknowledgment (shown in the counterexample). -/
theorem C2_amended_no_guard (users : ConvState) (body : InteractionBody)
    (channel ts : String) (e : ConvMember)
    (hc : body.channel = some channel) (hm : body.message = some { ts := some ts })
    (hu : users body.userId = some e) :
    (notWorkingClickHandler users body).1
      = [Effect.ack, Effect.updateMessage channel ts "not-working-acknowledgment",
         Effect.send "NOT_WORKING"]
    ∧ stateAfter (notWorkingClickHandler users body).2 body.userId
      = some { initLog := e.initLog, answers := none } := by
  simp [notWorkingClickHandler, hm, hc, hu, notWorking, stateAfter, set_self]

/-- Witness for the amended C2 at the stale-click fixture. -/
theorem C2_amended_no_guard_witness :
    (bodyStaleC2.channel = some "D1"
      ∧ bodyStaleC2.message = some { ts := some "000.9" }
      ∧ usersC2 bodyStaleC2.userId = some { initLog := ["111.0"], answers := some ["a"] })
    ∧ ((notWorkingClickHandler usersC2 bodyStaleC2).1
        = [Effect.ack, Effect.updateMessage "D1" "000.9" "not-working-acknowledgment",
           Effect.send "NOT_WORKING"]
      ∧ stateAfter (notWorkingClickHandler usersC2 bodyStaleC2).2 bodyStaleC2.userId
        = some { initLog := ["111.0"], answers := none }) :=
  ⟨⟨rfl, rfl, by decide⟩,
    C2_amended_no_guard usersC2 bodyStaleC2 "D1" "000.9"
      { initLog := ["111.0"], answers := some ["a"] } rfl rfl (by decide)⟩

/-- C3 counterexample.  The claim says a failing initial post is
retried with bounded attempts and backoff, after which the member is
marked terminal OptedOut-with-error.  In the run where the post for U1
fails and the post for U2 succeeds: exactly one postMessage is issued
into the channel of U1 (no retry), and U1 ends with the untouched
fresh entry — an empty INIT log with answers still the fresh value,
not the opted-out sentinel, and no recorded reason (the state carries
no error field at all) — while U2 proceeds and the run completes. -/
theorem C3_counterexample :
    countPosts "D1" (initStandup gwC3 botC3).2 = 1
    ∧ (initStandup gwC3 botC3).1 "U1" = some { initLog := [], answers := some [] }
    ∧ (initStandup gwC3 botC3).1 "U2" = some { initLog := ["200.1"], answers := some [] }
    ∧ (initStandup gwC3 botC3).2.getLast? = some (Effect.send "INIT_DONE") := by
  refine ⟨by decide, by decide, by decide, by decide⟩

/-- C3 amended.  A member whose initial post returns no timestamp is
skipped after a single attempt: its iteration issues exactly one
postMessage and no retry, the member keeps the fresh entry (no
terminal marking, no recorded reason), and the loop continues through
the remaining members to INIT_DONE. -/
theorem C3_amended_single_attempt_skip (gw : Gateway) (bot : StandupBot)
    (m channel : String) (hm : m ∈ bot.members)
    (hc : gw.openConv m = some channel) (hp : gw.post channel = none) :
    memberEffects gw bot.notButtonId bot.startButtonId m
      = [Effect.createMember m, Effect.addUserMeta m, Effect.openConversation m,
         Effect.postMessage channel [bot.notButtonId, bot.startButtonId]]
    ∧ (initStandup gw bot).1 m = some createConversationStateMember
    ∧ (initStandup gw bot).2
      = Effect.send "INIT" :: Effect.connect ::
        (membersEffects gw bot.notButtonId bot.startButtonId bot.members
          ++ [Effect.send "INIT_DONE"]) := by
  refine ⟨?_, ?_, initStandup_trace gw bot⟩
  · simp [memberEffects, hc]
  · simp [initStandup_state, hm, memberOutcome, hc, hp]

/-- Witness for the amended C3 at the failing-post fixture. -/
theorem C3_amended_single_attempt_skip_witness :
    ("U1" ∈ botC3.members ∧ gwC3.openConv "U1" = some "D1" ∧ gwC3.post "D1" = none)
    ∧ (memberEffects gwC3 botC3.notButtonId botC3.startButtonId "U1"
        = [Effect.createMember "U1", Effect.addUserMeta "U1", Effect.openConversation "U1",
           Effect.postMessage "D1" [botC3.notButtonId, botC3.startButtonId]]
      ∧ (initStandup gwC3 botC3).1 "U1" = some createConversationStateMember
      ∧ (initStandup gwC3 botC3).2
        = Effect.send "INIT" :: Effect.connect ::
          (membersEffects gwC3 botC3.notButtonId botC3.startButtonId botC3.members
            ++ [Effect.send "INIT_DONE"])) :=
  ⟨⟨by decide, by decide, by decide⟩,
    C3_amended_single_attempt_skip gwC3 botC3 "U1" "D1" (by decide) (by decide) (by decide)⟩

/-- C4.  A "not working" click on the live init message of a member
awaiting its choice acknowledges, edits the clicked message (which is
the init message: its timestamp equals the single live reference) to
the neutral acknowledgment, wipes the answers of the member to the
opted-out sentinel — the terminal OptedOut encoding — and sends
NOT_WORKING.  The edit step is the spec-modelled `notWorking`. -/
theorem C4_not_working_opts_out (users : ConvState) (body : InteractionBody)
    (channel ts : String) (e : ConvMember)
    (hc : body.channel = some channel) (hm : body.message = some { ts := some ts })
    (hu : users body.userId = some e) (hlive : e.initLog = [ts]) :
    (notWorkingClickHandler users body).1
      = [Effect.ack, Effect.updateMessage channel ts "not-working-acknowledgment",
         Effect.send "NOT_WORKING"]
    ∧ stateAfter (notWorkingClickHandler users body).2 body.userId
      = some { initLog := [ts], answers := none } := by
  simp [notWorkingClickHandler, hm, hc, hu, notWorking, stateAfter, set_self, hlive]

/-- Witness for C4 at the live-reference fixture. -/
theorem C4_not_working_opts_out_witness :
    (bodyLiveC4.channel = some "D9"
      ∧ bodyLiveC4.message = some { ts := some "55.5" }
      ∧ usersC4 bodyLiveC4.userId = some { initLog := ["55.5"], answers := some [] }
      ∧ (ConvMember.mk ["55.5"] (some [])).initLog = ["55.5"])
    ∧ ((notWorkingClickHandler usersC4 bodyLiveC4).1
        = [Effect.ack, Effect.updateMessage "D9" "55.5" "not-working-acknowledgment",
           Effect.send "NOT_WORKING"]
      ∧ stateAfter (notWorkingClickHandler usersC4 bodyLiveC4).2 bodyLiveC4.userId
        = some { initLog := ["55.5"], answers := none }) :=
  ⟨⟨rfl, rfl, by decide, rfl⟩,
    C4_not_working_opts_out usersC4 bodyLiveC4 "D9" "55.5"
      { initLog := ["55.5"], answers := some [] } rfl rfl (by decide) rfl⟩

/-- Membership transfers from one member block into the loop trace. -/
lemma mem_membersEffects (gw : Gateway) (notId startId : String)
    (l : List String) (m : String) (e : Effect)
    (hm : m ∈ l) (he : e ∈ memberEffects gw notId startId m) :
    e ∈ membersEffects gw notId startId l := by
  induction l with
  | nil => cases hm
  | cons a rest ih =>
    rcases List.mem_cons.mp hm with h | h
    · subst h
      exact List.mem_append.mpr (Or.inl he)
    · exact List.mem_append.mpr (Or.inr (ih h))

/-- C5.  For every member whose conversation opens, the loop posts the
initial prompt carrying exactly the two button action ids — the
not-working button id then the start button id — and records the
returned timestamp under the INIT log exactly when the post returned
one: the final entry of the member has INIT log `[ts]` when the post
succeeded with `ts` and `[]` when it did not. -/
theorem C5_init_prompt_two_choices (gw : Gateway) (bot : StandupBot)
    (m channel : String) (hm : m ∈ bot.members) (hc : gw.openConv m = some channel) :
    Effect.postMessage channel [bot.notButtonId, bot.startButtonId]
        ∈ (initStandup gw bot).2
    ∧ (initStandup gw bot).1 m
      = some { initLog := (match gw.post channel with | some ts => [ts] | none => []),
               answers := some [] } := by
  constructor
  · rw [initStandup_trace]
    refine List.mem_cons_of_mem _ (List.mem_cons_of_mem _ ?_)
    refine List.mem_append.mpr (Or.inl ?_)
    refine mem_membersEffects gw bot.notButtonId bot.startButtonId bot.members m _ hm ?_
    simp [memberEffects, hc]
  · rw [initStandup_state]
    cases hp : gw.post channel <;>
      simp [hm, memberOutcome, hc, hp, createConversationStateMember]

/-- Witness for C5 at the recovery fixture (post succeeds). -/
theorem C5_init_prompt_two_choices_witness :
    ("U1" ∈ botC1.members ∧ gwC1.openConv "U1" = some "D1")
    ∧ (Effect.postMessage "D1" [botC1.notButtonId, botC1.startButtonId]
        ∈ (initStandup gwC1 botC1).2
      ∧ (initStandup gwC1 botC1).1 "U1"
        = some { initLog := ["9999.0001"], answers := some [] }) :=
  ⟨⟨by decide, by decide⟩,
    C5_init_prompt_two_choices gwC1 botC1 "U1" "D1" (by decide) (by decide)⟩

/-- C6.  The run state machine receives INIT as the very first effect,
before any gateway call, and INIT_DONE as the very last, after the
complete member blocks of every member (each block ends with the post
of the member or its explicit skip): the whole trace decomposes as
INIT, connect, the member blocks in order, INIT_DONE. -/
theorem C6_init_before_posts_done_after (gw : Gateway) (bot : StandupBot) :
    (initStandup gw bot).2.head? = some (Effect.send "INIT")
    ∧ (initStandup gw bot).2.getLast? = some (Effect.send "INIT_DONE")
    ∧ (initStandup gw bot).2
      = Effect.send "INIT" :: Effect.connect ::
        (membersEffects gw bot.notButtonId bot.startButtonId bot.members
          ++ [Effect.send "INIT_DONE"]) := by
  refine ⟨?_, ?_, initStandup_trace gw bot⟩
  · rw [initStandup_trace]; rfl
  · rw [initStandup_trace]
    show ((Effect.send "INIT" :: Effect.connect ::
      membersEffects gw bot.notButtonId bot.startButtonId bot.members)
        ++ [Effect.send "INIT_DONE"]).getLast? = some (Effect.send "INIT_DONE")
    rw [List.getLast?_concat]

/-- C7.  The claim says every event is acknowledged and a malformed
event — one missing the channel id or the message timestamp — is
dropped after the acknowledgment with no state change and no further
gateway call.  Acknowledgment always happens first, and events whose
message object is present but lacks a timestamp, or whose channel id
is absent, are indeed dropped cleanly.  But an event with no message
object at all — which certainly misses the message timestamp — makes
both handlers throw right after the acknowledgment: the read of
`body.message.ts` has no optional chaining (unlike the
`body?.channel?.id` read above it), so the guard that would drop the
event is never reached. -/
theorem C7_malformed_event_behavior :
    notWorkingClickHandler emptyState
        { channel := some "D1", message := none, userId := "U1" }
      = ([Effect.ack], Except.error "TypeError: reading ts of undefined")
    ∧ startStandupClickHandler emptyState
        { channel := some "D1", message := none, userId := "U1" }
      = ([Effect.ack], Except.error "TypeError: reading ts of undefined")
    ∧ notWorkingClickHandler emptyState
        { channel := some "D1", message := some { ts := none }, userId := "U1" }
      = ([Effect.ack], Except.ok emptyState)
    ∧ notWorkingClickHandler emptyState
        { channel := none, message := some { ts := some "1.1" }, userId := "U1" }
      = ([Effect.ack], Except.ok emptyState)
    ∧ startStandupClickHandler emptyState
        { channel := some "D1", message := some { ts := none }, userId := "U1" }
      = ([Effect.ack], Except.ok emptyState)
    ∧ startStandupClickHandler emptyState
        { channel := none, message := some { ts := some "1.1" }, userId := "U1" }
      = ([Effect.ack], Except.ok emptyState) :=
  ⟨rfl, rfl, rfl, rfl, rfl, rfl⟩

/-- C8 counterexample.  The claim says no member gateway calls are
serialized behind another member.  In the two-member run where
everything succeeds, the trace is fully determined and every call of
member B — starting with its openConversation at position 8 — comes
after the postMessage of member A at position 5: the loop body awaits
each gateway call before the next member starts. -/
theorem C8_counterexample :
    (initStandup gwC8 botC8).2
      = [Effect.send "INIT", Effect.connect,
         Effect.createMember "A", Effect.addUserMeta "A", Effect.openConversation "A",
         Effect.postMessage "DA" ["notW8", "startW8"],
         Effect.createMember "B", Effect.addUserMeta "B", Effect.openConversation "B",
         Effect.postMessage "DB" ["notW8", "startW8"],
         Effect.send "INIT_DONE"]
    ∧ (initStandup gwC8 botC8).2.indexOf (Effect.openConversation "B") = 8
    ∧ (initStandup gwC8 botC8).2.indexOf (Effect.postMessage "DA" ["notW8", "startW8"]) = 5 := by
  refine ⟨by decide, by decide, by decide⟩

/-- C8 amended.  Member initiation is sequential in member-list order:
the complete effect block of the first member precedes every effect of
the remaining members, whatever the incoming state. -/
theorem C8_amended_sequential (gw : Gateway) (notId startId : String)
    (u : ConvState) (a : String) (rest : List String) :
    (runMembers gw notId startId u (a :: rest)).2
      = memberEffects gw notId startId a ++ membersEffects gw notId startId rest := by
  simp [runMembers, initMemberStep_effects, runMembers_effects]

/-- C9.  Every member of the run ends with an entry in the users map:
the entry is the deterministic per-member outcome, the member block
begins with the entry creation before any gateway call of that member,
and a member whose conversation failed to open, or whose post returned
no timestamp, keeps exactly the fresh entry with its empty INIT log. -/
theorem C9_every_member_registered (gw : Gateway) (bot : StandupBot)
    (m : String) (hm : m ∈ bot.members) :
    (initStandup gw bot).1 m = some (memberOutcome gw m)
    ∧ (memberEffects gw bot.notButtonId bot.startButtonId m).head?
      = some (Effect.createMember m)
    ∧ (gw.openConv m = none → memberOutcome gw m = createConversationStateMember)
    ∧ (∀ channel, gw.openConv m = some channel → gw.post channel = none →
        memberOutcome gw m = createConversationStateMember) := by
  refine ⟨by simp [initStandup_state, hm], ?_, ?_, ?_⟩
  · cases hc : gw.openConv m <;> simp [memberEffects, hc]
  · intro h
    simp [memberOutcome, h]
  · intro channel h hp
    simp [memberOutcome, h, hp]

/-- Witness for C9 at the failing-post fixture. -/
theorem C9_every_member_registered_witness :
    ("U1" ∈ botC3.members)
    ∧ ((initStandup gwC3 botC3).1 "U1" = some (memberOutcome gwC3 "U1")
      ∧ (memberEffects gwC3 botC3.notButtonId botC3.startButtonId "U1").head?
        = some (Effect.createMember "U1")
      ∧ (gwC3.openConv "U1" = none → memberOutcome gwC3 "U1" = createConversationStateMember)
      ∧ (∀ channel, gwC3.openConv "U1" = some channel → gwC3.post channel = none →
          memberOutcome gwC3 "U1" = createConversationStateMember)) :=
  ⟨by decide, C9_every_member_registered gwC3 botC3 "U1" (by decide)⟩

/-- C10.  `fetchStandups` is a total function of the database outcome:
a failed select yields the empty list (the page renders with zero
entries) and a successful select yields its rows unchanged; no error
propagates out. -/
theorem C10_fetchStandups_total (e : DbError) (rows : List Standup) :
    fetchStandups (Except.error e) = [] ∧ fetchStandups (Except.ok rows) = rows :=
  ⟨rfl, rfl⟩
